import Mathlib

/-!
Verification of the dashboard-stock core: a shallow embedding of the
time-series cache (`DataFetcher.fetch_data`, `Extractor.fetch_data`),
the yearly-returns aggregation (`Extractor.calculate_yearly_returns`),
the investment projection engine (`calculate_investment`) and the two
graph callbacks (`Callbacks.update_graph`, `StockDashboard.update_graph`).

Modelling choices:
- Python floats are modelled as exact rationals (`ℚ`); the claims under
  scrutiny concern control flow, list shapes, sampling positions and sign
  conditions, all of which are insensitive to the float/rational gap at the
  inputs used.
- `yf.download` is modelled as a pure oracle `Upstream : Request → Option
  DataFrame`; `none` models a raised exception.  A call that raises or
  returns an empty frame is caught by the source's `except` block and
  surfaces as `none`.  Each fetch also returns the list of upstream
  requests it issued, so "contacts the external source" is observable.
- A pandas DataFrame of the kind flowing through this program is its list
  of `(timestamp, close)` rows plus a flag recording whether the in-place
  column assignment `df["Year"] = df.index.year` has been applied to the
  object (the column's values are determined by the index, so the flag
  loses no information).
- The Python dict cache is an association list with unique keys; insertion
  of a fresh key appends.
-/

/-- A calendar timestamp, compared lexicographically as pandas compares
`DatetimeIndex` entries (year, then month, then day). -/
structure Date where
  year : ℤ
  month : ℤ
  day : ℤ
deriving DecidableEq

/-- `a ≤ b` on timestamps, as a boolean for use in row filters. -/
def Date.le (a b : Date) : Bool :=
  decide (a.year < b.year) ||
    (decide (a.year = b.year) &&
      (decide (a.month < b.month) ||
        (decide (a.month = b.month) && decide (a.day ≤ b.day))))

/-- A price DataFrame: the `(timestamp, Close)` rows, plus whether the
in-place mutation `df["Year"] = df.index.year` has been applied to this
object. -/
structure DataFrame where
  rows : List (Date × ℚ)
  hasYearColumn : Bool
deriving DecidableEq

/-- One call to `yf.download`: the ticker symbol, the `period` argument and
the explicit `interval` argument (`none` = the default daily interval). -/
structure Request where
  symbol : String
  period : String
  interval : Option String
deriving DecidableEq

/-- The external market-data source: a pure oracle; `none` models a raised
exception (network failure etc.). -/
abbrev Upstream := Request → Option DataFrame

/-- The `data_cache` dict: association list keyed by period string. -/
abbrev Cache := List (String × DataFrame)

/-- Dict lookup (`period in self.data_cache` / `self.data_cache[period]`). -/
def cacheLookup (c : Cache) (k : String) : Option DataFrame :=
  match c with
  | [] => none
  | (k', df) :: rest => if k' = k then some df else cacheLookup rest k

/-- The download request issued by `DataFetcher.fetch_data`
(`yf.download("^GSPC", period=period)`, default interval). -/
def DataFetcher.request (period : String) : Request :=
  ⟨"^GSPC", period, none⟩

/-- `DataFetcher.fetch_data` (src/src/data_fetcher.py lines 36-57): return
the cached frame on a hit; otherwise download, treat an empty frame as a
failure (the raised `ValueError` is caught by the same `except`), cache
only on success, and return `None` on failure.  The third component lists
the upstream requests issued by the call. -/
def DataFetcher.fetch_data (up : Upstream) (cache : Cache) (period : String) :
    Option DataFrame × Cache × List Request :=
  match cacheLookup cache period with
  | some df => (some df, cache, [])
  | none =>
    match up (DataFetcher.request period) with
    | none => (none, cache, [DataFetcher.request period])
    | some df =>
      if df.rows.isEmpty then (none, cache, [DataFetcher.request period])
      else (some df, cache ++ [(period, df)], [DataFetcher.request period])

/-- The interval chosen by `Extractor.fetch_data` for a period: `"1m"` for
`"1d"`, `"1h"` for `"5d"`, the default daily interval otherwise. -/
def extractorInterval (period : String) : Option String :=
  if period = "1d" then some "1m"
  else if period = "5d" then some "1h"
  else none

/-- The download request issued by `Extractor.fetch_data`
(`yf.download("SXR8.DE", period=period, interval=...)`). -/
def Extractor.request (period : String) : Request :=
  ⟨"SXR8.DE", period, extractorInterval period⟩

/-- `Extractor.fetch_data` (src/src/extractor.py lines 39-64): same caching
discipline as `DataFetcher.fetch_data`, but downloading `SXR8.DE` with an
interval that depends on the period. -/
def Extractor.fetch_data (up : Upstream) (cache : Cache) (period : String) :
    Option DataFrame × Cache × List Request :=
  match cacheLookup cache period with
  | some df => (some df, cache, [])
  | none =>
    match up (Extractor.request period) with
    | none => (none, cache, [Extractor.request period])
    | some df =>
      if df.rows.isEmpty then (none, cache, [Extractor.request period])
      else (some df, cache ++ [(period, df)], [Extractor.request period])

/-- Insert a year into an ascending list of years, keeping it sorted. -/
def insertSorted (y : ℤ) : List ℤ → List ℤ
  | [] => [y]
  | z :: zs => if y ≤ z then y :: z :: zs else z :: insertSorted y zs

/-- Sort a list of years ascending (pandas `groupby` sorts its keys). -/
def sortYears (l : List ℤ) : List ℤ := l.foldr insertSorted []

/-- The distinct calendar years of a row list, ascending — the index of
`df.groupby("Year")`. -/
def distinctYears (rows : List (Date × ℚ)) : List ℤ :=
  sortYears (rows.map (fun r => r.1.year)).dedup

/-- `df.groupby("Year")["Close"].last()` at one year: the close of the last
row of that year in original row order (`0` is never reached for years
actually present). -/
def lastClose (rows : List (Date × ℚ)) (y : ℤ) : ℚ :=
  match (rows.filter (fun r => decide (r.1.year = y))).getLast? with
  | some r => r.2
  | none => 0

/-- The tail of `yearly_prices.pct_change() * 100`: each year paired with
its percentage change relative to the previous year. -/
def pctTail (rows : List (Date × ℚ)) : ℤ → List ℤ → List (ℤ × Option ℚ)
  | _, [] => []
  | prev, y :: ys =>
    (y, some ((lastClose rows y - lastClose rows prev) / lastClose rows prev * 100)) ::
      pctTail rows y ys

/-- The body of `calculate_yearly_returns` on a row list: group by year,
take last closes, percentage change times 100, `reset_index`.  pandas
`pct_change` leaves `NaN` (here `none`) in the first position; no row is
dropped. -/
def yearlyReturnsOf (rows : List (Date × ℚ)) : List (ℤ × Option ℚ) :=
  match distinctYears rows with
  | [] => []
  | y :: ys => (y, none) :: pctTail rows y ys

/-- `Extractor.calculate_yearly_returns` (src/src/extractor.py lines
66-80): fetch the `max` series and aggregate.  The assignment
`df["Year"] = df.index.year` mutates the returned frame in place, and on
both the hit and the miss path that object is the one stored in the cache,
so the cached `max` entry acquires the `Year` column. -/
def Extractor.calculate_yearly_returns (up : Upstream) (cache : Cache) :
    List (ℤ × Option ℚ) × Cache :=
  match Extractor.fetch_data up cache "max" with
  | (some df, c1, _) =>
    (yearlyReturnsOf df.rows,
      c1.map (fun e => if e.1 = "max" then (e.1, { df with hasYearColumn := true }) else e))
  | (none, c1, _) => ([], c1)

/-- Python's built-in `round`: nearest integer, ties to even. -/
def pythonRound (q : ℚ) : ℤ :=
  if q - (⌊q⌋ : ℚ) < 1/2 then ⌊q⌋
  else if 1/2 < q - (⌊q⌋ : ℚ) then ⌊q⌋ + 1
  else if ⌊q⌋ % 2 = 0 then ⌊q⌋ else ⌊q⌋ + 1

/-- The per-month state of `calculate_investment`'s loop: the running
`investment_value` and the three per-month traces built up by the loop. -/
structure ProjState where
  investment_value : ℚ
  investment : List ℚ
  money_invested : List ℚ
  profits : List ℚ
deriving DecidableEq

/-- The tax computed at lines 97-103 of src/src/data_fetcher.py:
zero except at realization months, where the two-bracket formula applies
(low rate 0.27 below the threshold — including for negative profit — and
0.27/0.42 split above it). -/
def taxFor (threshold profit : ℚ) (realization : Bool) : ℚ :=
  if realization then
    if profit < threshold then profit * (27/100)
    else threshold * (27/100) + (profit - threshold) * (42/100)
  else 0

/-- One iteration of the `for i in range(num_months)` loop of
`calculate_investment`: accrue interest, add the contribution, compute the
running profit, tax it at realization months, deduct ongoing charges, and
append to the three traces. -/
def calcStep (threshold ii mi air ocr : ℚ) (s : ProjState) (i : ℕ) : ProjState :=
  let interest := s.investment_value * (air / 12)
  let v1 := s.investment_value + interest
  let v2 := v1 + mi
  let profit0 := v2 - ii - ((i : ℚ) + 1) * mi
  let tax := taxFor threshold profit0 (decide ((i + 1) % 12 = 0))
  let profit1 := profit0 - tax
  let v3 := v2 - v2 * (ocr / 12)
  { investment_value := v3
    investment := s.investment ++ [v3]
    money_invested := s.money_invested ++ [ii + ((i : ℚ) + 1) * mi]
    profits := s.profits ++ [profit1] }

/-- The loop state before the first iteration: lists seeded with the
initial sample. -/
def projInit (ii : ℚ) : ProjState := ⟨ii, [ii], [ii], [0]⟩

/-- The loop state after `n` iterations of `calculate_investment`'s loop. -/
def projLoop (threshold ii mi air ocr : ℚ) (n : ℕ) : ProjState :=
  (List.range n).foldl (calcStep threshold ii mi air ocr) (projInit ii)

/-- Helper for the slice `l[0::12]`: keep an element when the countdown is
0 (and restart it at 11), skip it otherwise. -/
def slice12Aux : ℕ → List ℚ → List ℚ
  | _, [] => []
  | 0, x :: xs => x :: slice12Aux 11 xs
  | n + 1, _ :: xs => slice12Aux n xs

/-- The slice `l[0::12]`. -/
def slice12 (l : List ℚ) : List ℚ := slice12Aux 0 l

/-- `calculate_investment`, parameterized by the tax threshold (the only
difference between the `DataFetcher`, `Extractor` and `StockDashboard`
copies): run `num_years * 12` months (`range` of a negative int is empty,
hence `toNat`), sample every 12th trace entry starting at 0, and round. -/
def calc_investment (threshold ii mi : ℚ) (num_years : ℤ) (air ocr : ℚ) :
    List ℤ × List ℤ × List ℤ :=
  let s := projLoop threshold ii mi air ocr (num_years * 12).toNat
  ((slice12 s.money_invested).map pythonRound,
   (slice12 s.investment).map pythonRound,
   (slice12 s.profits).map pythonRound)

/-- `DataFetcher.calculate_investment` (src/src/data_fetcher.py lines
59-117, threshold 61000).  It performs no input validation and has no
error path. -/
def DataFetcher.calculate_investment (ii mi : ℚ) (num_years : ℤ) (air ocr : ℚ) :
    List ℤ × List ℤ × List ℤ :=
  calc_investment 61000 ii mi num_years air ocr

/-- `Extractor.calculate_investment` (src/src/extractor.py lines 82-140,
threshold 80000). -/
def Extractor.calculate_investment (ii mi : ℚ) (num_years : ℤ) (air ocr : ℚ) :
    List ℤ × List ℤ × List ℤ :=
  calc_investment 80000 ii mi num_years air ocr

/-- A figure returned by a graph callback: either the "No data available"
placeholder or a chart of the given period's rows. -/
inductive GraphFig where
  | noData : GraphFig
  | chart : String → List (Date × ℚ) → GraphFig
deriving DecidableEq

deriving instance DecidableEq for Except

/-- The rows plotted by a callback result (empty for the no-data figure and
for a raised exception). -/
def rowsOf : Except String GraphFig → List (Date × ℚ)
  | Except.ok (GraphFig.chart _ rs) => rs
  | _ => []

/-- `update_graph` in src/src/callbacks.py (lines 54-104).  The `ytd`
branch fetches the `max` series and filters rows to
`df.index >= datetime(year, 1, 1)`; when the fetch returned `None`, the
expression `df[df.index >= start_date]` raises (`None` has no `index`)
before the `if df is None` guard is reached — modelled as `Except.error`.
All other branches fetch the named period and return the no-data figure
when the fetch returned `None` or an empty frame. -/
def Callbacks.update_graph (up : Upstream) (cache : Cache) (nowYear : ℤ)
    (button_id : String) : Except String GraphFig × Cache :=
  if button_id = "ytd" then
    match DataFetcher.fetch_data up cache "max" with
    | (none, c1, _) =>
      (Except.error "AttributeError: NoneType object has no attribute index", c1)
    | (some df, c1, _) =>
      let dff := df.rows.filter (fun r => Date.le ⟨nowYear, 1, 1⟩ r.1)
      if dff.isEmpty then (Except.ok GraphFig.noData, c1)
      else (Except.ok (GraphFig.chart "ytd" dff), c1)
  else
    match DataFetcher.fetch_data up cache button_id with
    | (none, c1, _) => (Except.ok GraphFig.noData, c1)
    | (some df, c1, _) =>
      if df.rows.isEmpty then (Except.ok GraphFig.noData, c1)
      else (Except.ok (GraphFig.chart button_id df.rows), c1)

/-- `update_graph` in src/stocks.py (lines 247-296): every button id,
`ytd` included, is passed verbatim to `fetch_data` (which caches it under
that key); only `df is None` is checked.  `StockDashboard.fetch_data`
(src/stocks.py lines 49-70) is textually identical to
`DataFetcher.fetch_data`, so the model reuses it. -/
def StockDashboard.update_graph (up : Upstream) (cache : Cache)
    (button_id : String) : Except String GraphFig × Cache :=
  match DataFetcher.fetch_data up cache button_id with
  | (none, c1, _) => (Except.ok GraphFig.noData, c1)
  | (some df, c1, _) => (Except.ok (GraphFig.chart button_id df.rows), c1)

/-- The running profit computed at line 93-95 of src/src/data_fetcher.py in
month `i` (0-based), before the tax step: the value after interest and
contribution, minus everything contributed so far. -/
def preTaxAt (threshold ii mi air ocr : ℚ) (i : ℕ) : ℚ :=
  ((projLoop threshold ii mi air ocr i).investment_value +
      (projLoop threshold ii mi air ocr i).investment_value * (air / 12) + mi) -
    ii - ((i : ℚ) + 1) * mi

/-- The profit recorded for month `i` after the tax step (line 105). -/
def postTaxAt (threshold ii mi air ocr : ℚ) (i : ℕ) : ℚ :=
  preTaxAt threshold ii mi air ocr i -
    taxFor threshold (preTaxAt threshold ii mi air ocr i) (decide ((i + 1) % 12 = 0))

/-- Example series from the spec's test list: last closes 100 in 2021, 110
in 2022, 99 in 2023. -/
def exRows : List (Date × ℚ) :=
  [(⟨2021, 12, 31⟩, 100), (⟨2022, 12, 30⟩, 110), (⟨2023, 12, 29⟩, 99)]

/-- An upstream source that always returns the example series. -/
def exUp : Upstream := fun _ => some ⟨exRows, false⟩

/-- An upstream source that always fails (raises). -/
def upNone : Upstream := fun _ => none

/-- A `max` series spanning two calendar years (2022 and 2023). -/
def dfW : DataFrame := ⟨[(⟨2022, 6, 1⟩, 100), (⟨2023, 1, 5⟩, 110)], false⟩

/-- An upstream source that always returns the two-year series. -/
def upW : Upstream := fun _ => some dfW

theorem projLoop_succ (threshold ii mi air ocr : ℚ) (n : ℕ) :
    projLoop threshold ii mi air ocr (n + 1) =
      calcStep threshold ii mi air ocr (projLoop threshold ii mi air ocr n) n := by
  unfold projLoop
  rw [List.range_succ, List.foldl_append]
  rfl

theorem projLoop_money (threshold ii mi air ocr : ℚ) (n : ℕ) :
    (projLoop threshold ii mi air ocr n).money_invested =
      ii :: (List.range n).map (fun i : ℕ => ii + ((i : ℚ) + 1) * mi) := by
  induction n with
  | zero => rfl
  | succ n ih =>
    rw [projLoop_succ, List.range_succ, List.map_append]
    simp [calcStep, ih]

theorem projLoop_profits (threshold ii mi air ocr : ℚ) (n : ℕ) :
    (projLoop threshold ii mi air ocr n).profits =
      0 :: (List.range n).map (postTaxAt threshold ii mi air ocr) := by
  induction n with
  | zero => rfl
  | succ n ih =>
    rw [projLoop_succ, List.range_succ, List.map_append]
    simp [calcStep, ih, postTaxAt, preTaxAt]

theorem projLoop_investment_length (threshold ii mi air ocr : ℚ) (n : ℕ) :
    (projLoop threshold ii mi air ocr n).investment.length = n + 1 := by
  induction n with
  | zero => rfl
  | succ n ih =>
    rw [projLoop_succ]
    simp [calcStep, ih]

theorem slice12Aux_getElem? :
    ∀ (l : List ℚ) (j k : ℕ), (slice12Aux j l)[k]? = l[j + 12 * k]? := by
  intro l
  induction l with
  | nil => intro j k; simp [slice12Aux]
  | cons x xs ih =>
    intro j k
    cases j with
    | zero =>
      cases k with
      | zero => simp [slice12Aux]
      | succ k =>
        have h12 : 0 + 12 * (k + 1) = (11 + 12 * k) + 1 := by ring
        rw [h12]
        simp only [slice12Aux, List.getElem?_cons_succ]
        exact ih 11 k
    | succ j =>
      have h12 : (j + 1) + 12 * k = (j + 12 * k) + 1 := by ring
      rw [h12]
      simp only [slice12Aux, List.getElem?_cons_succ]
      exact ih j k

theorem slice12_getElem? (k : ℕ) (l : List ℚ) : (slice12 l)[k]? = l[12 * k]? := by
  have h := slice12Aux_getElem? l 0 k
  rw [Nat.zero_add] at h
  exact h

theorem slice12Aux_length :
    ∀ (l : List ℚ) (j : ℕ), j ≤ 11 →
      (slice12Aux j l).length = (l.length + 11 - j) / 12 := by
  intro l
  induction l with
  | nil => intro j hj; simp [slice12Aux]; omega
  | cons x xs ih =>
    intro j hj
    cases j with
    | zero =>
      simp only [slice12Aux, List.length_cons]
      rw [ih 11 (by omega)]
      omega
    | succ j =>
      simp only [slice12Aux, List.length_cons]
      rw [ih j (by omega)]
      omega

theorem slice12_length (k : ℕ) (l : List ℚ) (h : l.length = 12 * k + 1) :
    (slice12 l).length = k + 1 := by
  unfold slice12
  rw [slice12Aux_length l 0 (by omega), h]
  omega

theorem cacheLookup_append_self (c : Cache) (p : String) (df : DataFrame)
    (h : cacheLookup c p = none) : cacheLookup (c ++ [(p, df)]) p = some df := by
  induction c with
  | nil => simp [cacheLookup]
  | cons e rest ih =>
    by_cases he : e.1 = p
    · simp [cacheLookup, he] at h
    · simp only [cacheLookup, if_neg he] at h
      simp only [List.cons_append, cacheLookup, if_neg he]
      exact ih h

theorem cacheLookup_append_of_some (c : Cache) (l : Cache) (k : String)
    (df : DataFrame) (h : cacheLookup c k = some df) :
    cacheLookup (c ++ l) k = some df := by
  induction c with
  | nil => simp [cacheLookup] at h
  | cons e rest ih =>
    by_cases he : e.1 = k
    · simp only [cacheLookup, if_pos he] at h
      rw [List.cons_append]
      simp only [cacheLookup, if_pos he]
      exact h
    · simp only [cacheLookup, if_neg he] at h
      rw [List.cons_append]
      simp only [cacheLookup, if_neg he]
      exact ih h

theorem cacheLookup_append_ne (c : Cache) (p k : String) (df : DataFrame)
    (h : p ≠ k) : cacheLookup (c ++ [(p, df)]) k = cacheLookup c k := by
  induction c with
  | nil => simp [cacheLookup, h]
  | cons e rest ih =>
    by_cases he : e.1 = k
    · rw [List.cons_append]
      simp only [cacheLookup, if_pos he]
    · rw [List.cons_append]
      simp only [cacheLookup, if_neg he]
      exact ih

theorem DataFetcher.fetch_data_hit (up : Upstream) (c : Cache) (p : String)
    (df : DataFrame) (h : cacheLookup c p = some df) :
    DataFetcher.fetch_data up c p = (some df, c, []) := by
  unfold DataFetcher.fetch_data
  rw [h]

theorem Extractor.fetch_hit (up : Upstream) (c : Cache) (p : String)
    (df : DataFrame) (h : cacheLookup c p = some df) :
    Extractor.fetch_data up c p = (some df, c, []) := by
  unfold Extractor.fetch_data
  rw [h]

theorem DataFetcher.fetch_data_preserves (up : Upstream) (c : Cache)
    (p k : String) (df : DataFrame) (h : cacheLookup c k = some df) :
    cacheLookup (DataFetcher.fetch_data up c p).2.1 k = some df := by
  unfold DataFetcher.fetch_data
  cases hl : cacheLookup c p with
  | some df' => exact h
  | none =>
    cases hu : up (DataFetcher.request p) with
    | none => exact h
    | some df' =>
      by_cases hr : df'.rows.isEmpty = true
      · simp only [if_pos hr]
        exact h
      · simp only [if_neg hr]
        exact cacheLookup_append_of_some c _ k df h

theorem DataFetcher.fetch_data_other_key (up : Upstream) (c : Cache)
    (p k : String) (h : p ≠ k) :
    cacheLookup (DataFetcher.fetch_data up c p).2.1 k = cacheLookup c k := by
  unfold DataFetcher.fetch_data
  cases hl : cacheLookup c p with
  | some df' => rfl
  | none =>
    cases hu : up (DataFetcher.request p) with
    | none => rfl
    | some df' =>
      by_cases hr : df'.rows.isEmpty = true
      · simp only [if_pos hr]
      · simp only [if_neg hr]
        exact cacheLookup_append_ne c p k df' h

theorem Extractor.fetch_preserves (up : Upstream) (c : Cache)
    (p k : String) (df : DataFrame) (h : cacheLookup c k = some df) :
    cacheLookup (Extractor.fetch_data up c p).2.1 k = some df := by
  unfold Extractor.fetch_data
  cases hl : cacheLookup c p with
  | some df' => exact h
  | none =>
    cases hu : up (Extractor.request p) with
    | none => exact h
    | some df' =>
      by_cases hr : df'.rows.isEmpty = true
      · simp only [if_pos hr]
        exact h
      · simp only [if_neg hr]
        exact cacheLookup_append_of_some c _ k df h

theorem cacheLookup_markMax (c : Cache) (mdf : DataFrame) (k : String) :
    cacheLookup (c.map (fun e => if e.1 = "max" then (e.1, mdf) else e)) k =
      if k = "max" then (cacheLookup c k).map (fun _ => mdf)
      else cacheLookup c k := by
  induction c with
  | nil => simp [cacheLookup]
  | cons e rest ih =>
    simp only [List.map_cons]
    by_cases hm : e.1 = "max"
    · rw [if_pos hm]
      by_cases hk : e.1 = k
      · have hkm : k = "max" := by rw [← hk, hm]
        simp [cacheLookup, hk, hkm]
      · simp only [cacheLookup, if_neg hk, ih]
    · rw [if_neg hm]
      by_cases hk : e.1 = k
      · have hkm : ¬k = "max" := by rw [← hk]; exact hm
        simp [cacheLookup, hk, hkm]
      · simp only [cacheLookup, if_neg hk, ih]

theorem insertSorted_length (y : ℤ) (l : List ℤ) :
    (insertSorted y l).length = l.length + 1 := by
  induction l with
  | nil => rfl
  | cons z zs ih =>
    by_cases h : y ≤ z
    · simp [insertSorted, h]
    · simp [insertSorted, h, ih]

theorem sortYears_length (l : List ℤ) : (sortYears l).length = l.length := by
  induction l with
  | nil => rfl
  | cons z zs ih =>
    simp only [sortYears, List.foldr_cons] at ih ⊢
    rw [insertSorted_length, ih, List.length_cons]

theorem pctTail_map_fst (rows : List (Date × ℚ)) :
    ∀ (ys : List ℤ) (prev : ℤ), (pctTail rows prev ys).map Prod.fst = ys := by
  intro ys
  induction ys with
  | nil => intro prev; rfl
  | cons y ys ih =>
    intro prev
    simp only [pctTail, List.map_cons, ih]

theorem yearlyReturnsOf_map_fst (rows : List (Date × ℚ)) :
    (yearlyReturnsOf rows).map Prod.fst = distinctYears rows := by
  unfold yearlyReturnsOf
  cases h : distinctYears rows with
  | nil => rfl
  | cons y ys => simp [pctTail_map_fst]

theorem yearlyReturnsOf_head (rows : List (Date × ℚ)) (y : ℤ) (ys : List ℤ)
    (h : distinctYears rows = y :: ys) :
    (yearlyReturnsOf rows).head? = some (y, none) := by
  unfold yearlyReturnsOf
  rw [h]
  rfl

unseal Rat.add Rat.sub Rat.mul Rat.inv in
theorem pythonRound_zero : pythonRound 0 = 0 := by decide

theorem projLoop_money_getElem (threshold ii mi air ocr : ℚ) (n j : ℕ)
    (h : j ≤ n) : (projLoop threshold ii mi air ocr n).money_invested[j]? =
      some (ii + (j : ℚ) * mi) := by
  rw [projLoop_money]
  cases j with
  | zero => norm_num
  | succ j =>
    rw [List.getElem?_cons_succ, List.getElem?_map,
      List.getElem?_range (by omega : j < n)]
    simp only [Option.map_some']
    congr 1
    push_cast
    ring

/-- Claim C1: the spec says invalid projection inputs are rejected with
`InvalidInputError`; the code has no validation and no such error type.  It
returns the three sequences for every input whatsoever: for any
`num_years` the outputs all have length `num_years.toNat + 1`, and for
`num_years ≤ 0` the loop body never runs and the three singleton initial
samples are returned — no error, ever. -/
theorem C1_no_validation (ii mi : ℚ) (ny : ℤ) (air ocr : ℚ) :
    (DataFetcher.calculate_investment ii mi ny air ocr).1.length = ny.toNat + 1 ∧
    (DataFetcher.calculate_investment ii mi ny air ocr).2.1.length = ny.toNat + 1 ∧
    (DataFetcher.calculate_investment ii mi ny air ocr).2.2.length = ny.toNat + 1 ∧
    (ny ≤ 0 → DataFetcher.calculate_investment ii mi ny air ocr =
      ([pythonRound ii], [pythonRound ii], [0])) := by
  have hn : (ny * 12).toNat = 12 * ny.toNat := by omega
  refine ⟨?_, ?_, ?_, ?_⟩
  · show ((slice12 (projLoop 61000 ii mi air ocr
      (ny * 12).toNat).money_invested).map pythonRound).length = ny.toNat + 1
    rw [List.length_map]
    apply slice12_length
    rw [projLoop_money, List.length_cons, List.length_map, List.length_range, hn]
  · show ((slice12 (projLoop 61000 ii mi air ocr
      (ny * 12).toNat).investment).map pythonRound).length = ny.toNat + 1
    rw [List.length_map]
    apply slice12_length
    rw [projLoop_investment_length, hn]
  · show ((slice12 (projLoop 61000 ii mi air ocr
      (ny * 12).toNat).profits).map pythonRound).length = ny.toNat + 1
    rw [List.length_map]
    apply slice12_length
    rw [projLoop_profits, List.length_cons, List.length_map, List.length_range, hn]
  · intro h0
    have hz : (ny * 12).toNat = 0 := by omega
    show ((slice12 (projLoop 61000 ii mi air ocr (ny * 12).toNat).money_invested).map pythonRound,
      (slice12 (projLoop 61000 ii mi air ocr (ny * 12).toNat).investment).map pythonRound,
      (slice12 (projLoop 61000 ii mi air ocr (ny * 12).toNat).profits).map pythonRound) = _
    rw [hz]
    show ((slice12 [ii]).map pythonRound, (slice12 [ii]).map pythonRound,
      (slice12 [(0 : ℚ)]).map pythonRound) = _
    simp [slice12, slice12Aux, pythonRound_zero]

set_option maxRecDepth 10000 in
unseal Rat.add Rat.sub Rat.mul Rat.inv in
/-- Claim C1 counterexample: at inputs violating the spec's constraints
(`num_years = 0`, and a negative `monthly_investment`), the operation
returns ordinary results instead of failing with `InvalidInputError`. -/
theorem C1_counterexample :
    DataFetcher.calculate_investment 100000 5000 0 (7/100) (7/10000) =
      ([100000], [100000], [0]) ∧
    (DataFetcher.calculate_investment 100000 (-5000) 1 (7/100) (7/10000)).1.length = 2 := by
  decide

set_option maxRecDepth 10000 in
unseal Rat.add Rat.sub Rat.mul Rat.inv in
theorem C1_witness :
    (0 : ℤ) ≤ 0 ∧
    DataFetcher.calculate_investment 100000 5000 0 (7/100) (7/10000) =
      ([100000], [100000], [0]) :=
  ⟨by decide, by
    have h := (C1_no_validation 100000 5000 0 (7/100) (7/10000)).2.2.2 (by decide)
    rw [h]
    decide⟩

set_option maxRecDepth 10000 in
unseal Rat.add Rat.sub Rat.mul Rat.inv in
/-- Claim C8: for every input and every year index `k ≤ num_years`, entry
`k` of `money_invested_yearly` equals
`round(initial_investment + 12*k*monthly_investment)`; and at the spec's
example inputs (100000, 5000, 1 year, 7%, 0.07%) the engine returns
2-element sequences with `money_invested_yearly = [100000, 160000]`. -/
theorem C8_money_schedule :
    (∀ (ii mi air ocr : ℚ) (ny : ℤ) (k : ℕ), 1 ≤ ny → (k : ℤ) ≤ ny →
      (DataFetcher.calculate_investment ii mi ny air ocr).1[k]? =
        some (pythonRound (ii + 12 * (k : ℚ) * mi))) ∧
    ((DataFetcher.calculate_investment 100000 5000 1 (7/100) (7/10000)).1 =
        [100000, 160000] ∧
      (DataFetcher.calculate_investment 100000 5000 1 (7/100) (7/10000)).2.1.length = 2 ∧
      (DataFetcher.calculate_investment 100000 5000 1 (7/100) (7/10000)).2.2.length = 2) := by
  constructor
  · intro ii mi air ocr ny k hny hk
    show ((slice12 (projLoop 61000 ii mi air ocr
      (ny * 12).toNat).money_invested).map pythonRound)[k]? = _
    rw [List.getElem?_map, slice12_getElem?,
      projLoop_money_getElem 61000 ii mi air ocr _ _ (by omega)]
    simp only [Option.map_some']
    congr 1
    push_cast
    ring
  · refine ⟨by decide, by decide, by decide⟩

set_option maxRecDepth 10000 in
unseal Rat.add Rat.sub Rat.mul Rat.inv in
/-- Witness for C8 at the spec's example inputs with `k = 1`. -/
theorem C8_witness :
    ((1 : ℤ) ≤ 1 ∧ ((1 : ℕ) : ℤ) ≤ 1) ∧
    (DataFetcher.calculate_investment 100000 5000 1 (7/100) (7/10000)).1[1]? =
      some (pythonRound (100000 + 12 * ((1 : ℕ) : ℚ) * 5000)) :=
  ⟨⟨by decide, by decide⟩,
    C8_money_schedule.1 100000 5000 (7/100) (7/10000) 1 1 (by decide) (by decide)⟩

/-- Claim C2 (amended): at a tax-realization month whose running profit is
negative, the engine does not clamp the tax to zero: it applies the
low-bracket formula, so the tax is `0.27 * profit < 0` and the recorded
profit is `profit * 0.73`, strictly greater than the pre-tax profit — a
negative tax credit that increases the recorded profit. -/
theorem C2_negative_profit_credit (ii mi air ocr : ℚ) (ny : ℤ) (i : ℕ)
    (hlt : i < (ny * 12).toNat) (hreal : (i + 1) % 12 = 0)
    (hneg : preTaxAt 61000 ii mi air ocr i < 0) :
    (projLoop 61000 ii mi air ocr (ny * 12).toNat).profits[i + 1]? =
      some (preTaxAt 61000 ii mi air ocr i * (73/100)) ∧
    preTaxAt 61000 ii mi air ocr i <
      preTaxAt 61000 ii mi air ocr i * (73/100) := by
  constructor
  · rw [projLoop_profits, List.getElem?_cons_succ, List.getElem?_map,
      List.getElem?_range hlt]
    simp only [Option.map_some']
    congr 1
    unfold postTaxAt taxFor
    rw [if_pos (by simp [hreal])]
    rw [if_pos (by linarith : preTaxAt 61000 ii mi air ocr i < 61000)]
    ring
  · linarith

set_option maxRecDepth 10000 in
unseal Rat.add Rat.sub Rat.mul Rat.inv in
/-- Claim C2 counterexample: with valid inputs (100000 initial, no monthly
contribution, 1 year, 0% interest, 12% ongoing charges) the running profit
at the first tax-realization month (index 11) is negative, the tax the code
applies is not zero, and the recorded profit is strictly larger than the
pre-tax profit — the tax step increases it. -/
theorem C2_counterexample :
    preTaxAt 61000 100000 0 0 (12/100) 11 < 0 ∧
    taxFor 61000 (preTaxAt 61000 100000 0 0 (12/100) 11)
      (decide ((11 + 1) % 12 = 0)) ≠ 0 ∧
    (projLoop 61000 100000 0 0 (12/100) 12).profits[12]? =
      some (preTaxAt 61000 100000 0 0 (12/100) 11 * (73/100)) ∧
    preTaxAt 61000 100000 0 0 (12/100) 11 <
      preTaxAt 61000 100000 0 0 (12/100) 11 * (73/100) := by
  decide

set_option maxRecDepth 10000 in
unseal Rat.add Rat.sub Rat.mul Rat.inv in
/-- Witness for C2 at the counterexample's inputs. -/
theorem C2_witness :
    (11 < ((1 : ℤ) * 12).toNat ∧ (11 + 1) % 12 = 0 ∧
      preTaxAt 61000 100000 0 0 (12/100) 11 < 0) ∧
    (projLoop 61000 100000 0 0 (12/100) ((1 : ℤ) * 12).toNat).profits[11 + 1]? =
      some (preTaxAt 61000 100000 0 0 (12/100) 11 * (73/100)) ∧
    preTaxAt 61000 100000 0 0 (12/100) 11 <
      preTaxAt 61000 100000 0 0 (12/100) 11 * (73/100) :=
  ⟨⟨by decide, by decide, by decide⟩,
    C2_negative_profit_credit 100000 0 0 (12/100) 1 11 (by decide) (by decide)
      (by decide)⟩

unseal Rat.add Rat.sub Rat.mul Rat.inv in
/-- Claim C3 (amended): `calculate_yearly_returns` does not drop the
earliest year: the output rows are exactly the distinct years in ascending
order — so there are as many entries as distinct years, not one fewer —
with the earliest year carrying a missing (`NaN`) percentage change; on the
spec's example series the result is
`[(2021, NaN), (2022, 10.0), (2023, -10.0)]`, three rows rather than two. -/
theorem C3_first_year_kept :
    (∀ rows : List (Date × ℚ),
      (yearlyReturnsOf rows).map Prod.fst = distinctYears rows ∧
      (yearlyReturnsOf rows).length = (rows.map (fun r => r.1.year)).dedup.length ∧
      ∀ y ys, distinctYears rows = y :: ys →
        (yearlyReturnsOf rows).head? = some (y, none)) ∧
    (Extractor.calculate_yearly_returns exUp []).1 =
      [(2021, none), (2022, some 10), (2023, some (-10))] := by
  constructor
  · intro rows
    refine ⟨yearlyReturnsOf_map_fst rows, ?_, yearlyReturnsOf_head rows⟩
    have h := congrArg List.length (yearlyReturnsOf_map_fst rows)
    rw [List.length_map] at h
    rw [h]
    exact sortYears_length _
  · decide

unseal Rat.add Rat.sub Rat.mul Rat.inv in
/-- Claim C3 counterexample: on the example series the output has three
rows — the 2021 row is present with a `NaN` change — so it is not the
claimed two-row sequence `[(2022, 10.0), (2023, -10.0)]`. -/
theorem C3_counterexample :
    (Extractor.calculate_yearly_returns exUp []).1 ≠
      [(2022, some 10), (2023, some (-10))] ∧
    (Extractor.calculate_yearly_returns exUp []).1.length = 3 := by
  decide

/-- Witness for C3 at the example series. -/
theorem C3_witness :
    (yearlyReturnsOf exRows).map Prod.fst = distinctYears exRows ∧
    (yearlyReturnsOf exRows).head? = some (2021, none) :=
  ⟨(C3_first_year_kept.1 exRows).1,
    (C3_first_year_kept.1 exRows).2.2 2021 [2022, 2023] (by decide)⟩

/-- Claim C4: a cached key is served from the cache without contacting the
external source (same frame back, cache and request list untouched), and
for a fresh key a successful fetch contacts the source exactly once while
the immediately following call for the same key is answered from the cache
with no request at all. -/
theorem C4_cache_memoizes (up : Upstream) (cache : Cache) (p : String) :
    (∀ df, cacheLookup cache p = some df →
      DataFetcher.fetch_data up cache p = (some df, cache, [])) ∧
    (cacheLookup cache p = none →
      ∀ df c' rq, DataFetcher.fetch_data up cache p = (some df, c', rq) →
        rq.length = 1 ∧ DataFetcher.fetch_data up c' p = (some df, c', [])) := by
  constructor
  · intro df h
    exact DataFetcher.fetch_data_hit up cache p df h
  · intro hnone df c' rq hcall
    cases hu : up (DataFetcher.request p) with
    | none =>
      have hfe : DataFetcher.fetch_data up cache p =
          (none, cache, [DataFetcher.request p]) := by
        unfold DataFetcher.fetch_data
        simp only [hnone, hu]
      rw [hfe] at hcall
      simp at hcall
    | some df0 =>
      by_cases hr : df0.rows.isEmpty = true
      · have hfe : DataFetcher.fetch_data up cache p =
            (none, cache, [DataFetcher.request p]) := by
          unfold DataFetcher.fetch_data
          simp only [hnone, hu, if_pos hr]
        rw [hfe] at hcall
        simp at hcall
      · have hfe : DataFetcher.fetch_data up cache p =
            (some df0, cache ++ [(p, df0)], [DataFetcher.request p]) := by
          unfold DataFetcher.fetch_data
          simp only [hnone, hu, if_neg hr]
        rw [hfe] at hcall
        injection hcall with h1 h23
        injection h23 with h2 h3
        injection h1 with h1
        subst h1
        subst h2
        subst h3
        refine ⟨rfl, ?_⟩
        exact DataFetcher.fetch_data_hit up _ p df0
          (cacheLookup_append_self cache p df0 hnone)

/-- Witness for C4: an empty cache, then two calls for `"1y"`. -/
theorem C4_witness :
    cacheLookup [] "1y" = none ∧
    ([DataFetcher.request "1y"].length = 1 ∧
      DataFetcher.fetch_data exUp [("1y", ⟨exRows, false⟩)] "1y" =
        (some ⟨exRows, false⟩, [("1y", ⟨exRows, false⟩)], [])) :=
  ⟨rfl, (C4_cache_memoizes exUp [] "1y").2 rfl ⟨exRows, false⟩
    [("1y", ⟨exRows, false⟩)] [DataFetcher.request "1y"] (by decide)⟩

/-- Claim C5: when the upstream fetch fails (raises, or returns an empty
frame), `fetch_data` returns `None` and leaves the cache mapping unchanged
— the failure is not cached — so a later call for the same key issues an
upstream request again. -/
theorem C5_failure_not_cached (up : Upstream) (cache : Cache) (p : String)
    (hnone : cacheLookup cache p = none)
    (hfail : up (DataFetcher.request p) = none ∨
      ∃ df, up (DataFetcher.request p) = some df ∧ df.rows = []) :
    DataFetcher.fetch_data up cache p = (none, cache, [DataFetcher.request p]) ∧
    (∀ c', DataFetcher.fetch_data up cache p = (none, c', [DataFetcher.request p]) →
      (DataFetcher.fetch_data up c' p).2.2 = [DataFetcher.request p]) := by
  have hmain : DataFetcher.fetch_data up cache p =
      (none, cache, [DataFetcher.request p]) := by
    unfold DataFetcher.fetch_data
    rcases hfail with h | ⟨df, h, hrows⟩
    · simp only [hnone, h]
    · have hr : df.rows.isEmpty = true := by simp [hrows]
      simp only [hnone, h, if_pos hr]
  refine ⟨hmain, ?_⟩
  intro c' h'
  have hc : c' = cache := by
    rw [hmain] at h'
    injection h' with h1 h23
    injection h23 with h2 h3
    exact h2.symm
  subst hc
  rw [hmain]

/-- Witness for C5 with an always-failing upstream source. -/
theorem C5_witness :
    DataFetcher.fetch_data upNone [] "1y" =
      (none, [], [DataFetcher.request "1y"]) ∧
    (DataFetcher.fetch_data upNone [] "1y").2.2 = [DataFetcher.request "1y"] :=
  ⟨(C5_failure_not_cached upNone [] "1y" rfl (Or.inl rfl)).1,
    (C5_failure_not_cached upNone [] "1y" rfl (Or.inl rfl)).2 []
      (C5_failure_not_cached upNone [] "1y" rfl (Or.inl rfl)).1⟩

/-- Claim C6 (amended): `fetch_data` never modifies an existing cache
entry, and entries under keys other than `max` survive
`calculate_yearly_returns` unchanged; but `calculate_yearly_returns` does
modify the stored `max` series in place — the cached object acquires the
`Year` column (its row data is unchanged) — so the cached value is not a
read-only view. -/
theorem C6_cached_series_mutation (up : Upstream) (cache : Cache) :
    (∀ k df, k ≠ "max" → cacheLookup cache k = some df →
      cacheLookup (Extractor.calculate_yearly_returns up cache).2 k = some df) ∧
    (∀ df, cacheLookup cache "max" = some df →
      cacheLookup (Extractor.calculate_yearly_returns up cache).2 "max" =
        some { df with hasYearColumn := true } ∧
      ({ df with hasYearColumn := true } : DataFrame).rows = df.rows) ∧
    (∀ p k df, cacheLookup cache k = some df →
      cacheLookup (DataFetcher.fetch_data up cache p).2.1 k = some df) := by
  refine ⟨?_, ?_, ?_⟩
  · intro k df hk h
    have hpres := Extractor.fetch_preserves up cache "max" k df h
    unfold Extractor.calculate_yearly_returns
    cases hf : Extractor.fetch_data up cache "max" with
    | mk odf cr =>
      rw [hf] at hpres
      obtain ⟨c1, rq⟩ := cr
      cases odf with
      | none => exact hpres
      | some df0 =>
        show cacheLookup (c1.map _) k = some df
        rw [cacheLookup_markMax, if_neg hk]
        exact hpres
  · intro df h
    have hfit := Extractor.fetch_hit up cache "max" df h
    refine ⟨?_, rfl⟩
    unfold Extractor.calculate_yearly_returns
    rw [hfit]
    show cacheLookup (cache.map _) "max" = some { df with hasYearColumn := true }
    rw [cacheLookup_markMax, if_pos rfl, h]
    rfl
  · intro p k df h
    exact DataFetcher.fetch_data_preserves up cache p k df h

/-- Claim C6 counterexample: after `calculate_yearly_returns` runs, the
cached `max` entry is no longer the frame that was stored (it has gained
the `Year` column): the cached value observed by later `get` calls has
changed. -/
theorem C6_counterexample :
    cacheLookup (Extractor.calculate_yearly_returns exUp
        [("max", ⟨exRows, false⟩)]).2 "max" ≠ some ⟨exRows, false⟩ ∧
    cacheLookup (Extractor.calculate_yearly_returns exUp
        [("max", ⟨exRows, false⟩)]).2 "max" = some ⟨exRows, true⟩ := by
  decide

/-- Witness for C6 on a cache holding a `max` and a `1y` entry. -/
theorem C6_witness :
    cacheLookup (Extractor.calculate_yearly_returns exUp
        [("max", ⟨exRows, false⟩), ("1y", dfW)]).2 "1y" = some dfW ∧
    cacheLookup (Extractor.calculate_yearly_returns exUp
        [("max", ⟨exRows, false⟩), ("1y", dfW)]).2 "max" =
      some ⟨exRows, true⟩ :=
  ⟨(C6_cached_series_mutation exUp [("max", ⟨exRows, false⟩), ("1y", dfW)]).1
      "1y" dfW (by decide) (by decide),
    ((C6_cached_series_mutation exUp
        [("max", ⟨exRows, false⟩), ("1y", dfW)]).2.1 ⟨exRows, false⟩ (by decide)).1⟩

/-- Claim C7: the spec says a fetch failure is surfaced as a "no data
available" figure on every path of `update_graph` and is never fatal; the
code's own `if df is None` guard shows that intent, but on the `ytd` path
the filter expression dereferences the `None` result before that guard
runs, so the callback raises instead of returning the no-data figure.  The
other paths do return the no-data figure. -/
theorem C7_ytd_path_raises :
    (Callbacks.update_graph upNone [] 2025 "ytd").1 =
      Except.error "AttributeError: NoneType object has no attribute index" ∧
    (Callbacks.update_graph upNone [] 2025 "1y").1 = Except.ok GraphFig.noData ∧
    (Callbacks.update_graph upNone [] 2025 "max").1 = Except.ok GraphFig.noData := by
  decide

/-- Claim C9 (amended): every upstream request issued by
`Extractor.fetch_data` uses interval `1m` for period `1d`, `1h` for `5d`
and the default daily interval otherwise; but `DataFetcher.fetch_data`
(the fetcher the dashboard actually wires in) issues every request at the
default daily granularity, for `1d` and `5d` as well. -/
theorem C9_interval_selection (up : Upstream) (cache : Cache) (p : String) :
    (∀ r ∈ (Extractor.fetch_data up cache p).2.2,
      r = Extractor.request p ∧ r.interval = extractorInterval p) ∧
    (∀ r ∈ (DataFetcher.fetch_data up cache p).2.2,
      r = DataFetcher.request p ∧ r.interval = none) := by
  constructor
  · intro r hr
    have hmem : r = Extractor.request p := by
      cases hl : cacheLookup cache p with
      | some df =>
        have hreq : (Extractor.fetch_data up cache p).2.2 = [] := by
          unfold Extractor.fetch_data
          simp only [hl]
        rw [hreq] at hr
        simp at hr
      | none =>
        cases hu : up (Extractor.request p) with
        | none =>
          have hreq : (Extractor.fetch_data up cache p).2.2 =
              [Extractor.request p] := by
            unfold Extractor.fetch_data
            simp only [hl, hu]
          rw [hreq] at hr
          simpa using hr
        | some df =>
          by_cases hrr : df.rows.isEmpty = true
          · have hreq : (Extractor.fetch_data up cache p).2.2 =
                [Extractor.request p] := by
              unfold Extractor.fetch_data
              simp only [hl, hu, if_pos hrr]
            rw [hreq] at hr
            simpa using hr
          · have hreq : (Extractor.fetch_data up cache p).2.2 =
                [Extractor.request p] := by
              unfold Extractor.fetch_data
              simp only [hl, hu, if_neg hrr]
            rw [hreq] at hr
            simpa using hr
    refine ⟨hmem, ?_⟩
    rw [hmem]
    rfl
  · intro r hr
    have hmem : r = DataFetcher.request p := by
      cases hl : cacheLookup cache p with
      | some df =>
        have hreq : (DataFetcher.fetch_data up cache p).2.2 = [] := by
          unfold DataFetcher.fetch_data
          simp only [hl]
        rw [hreq] at hr
        simp at hr
      | none =>
        cases hu : up (DataFetcher.request p) with
        | none =>
          have hreq : (DataFetcher.fetch_data up cache p).2.2 =
              [DataFetcher.request p] := by
            unfold DataFetcher.fetch_data
            simp only [hl, hu]
          rw [hreq] at hr
          simpa using hr
        | some df =>
          by_cases hrr : df.rows.isEmpty = true
          · have hreq : (DataFetcher.fetch_data up cache p).2.2 =
                [DataFetcher.request p] := by
              unfold DataFetcher.fetch_data
              simp only [hl, hu, if_pos hrr]
            rw [hreq] at hr
            simpa using hr
          · have hreq : (DataFetcher.fetch_data up cache p).2.2 =
                [DataFetcher.request p] := by
              unfold DataFetcher.fetch_data
              simp only [hl, hu, if_neg hrr]
            rw [hreq] at hr
            simpa using hr
    refine ⟨hmem, ?_⟩
    rw [hmem]
    rfl

/-- Claim C9 counterexample: for the `1d` key, `DataFetcher.fetch_data`
queries the source with the default daily interval, not minute-level
granularity. -/
theorem C9_counterexample :
    (DataFetcher.fetch_data upNone [] "1d").2.2 = [DataFetcher.request "1d"] ∧
    (DataFetcher.request "1d").interval = none ∧
    (DataFetcher.request "1d").interval ≠ some "1m" := by
  decide

/-- Witness for C9: a `1d` miss on each fetcher. -/
theorem C9_witness :
    ((Extractor.request "1d").interval = extractorInterval "1d" ∧
      extractorInterval "1d" = some "1m") ∧
    (DataFetcher.request "1d").interval = none :=
  ⟨⟨((C9_interval_selection upNone [] "1d").1 (Extractor.request "1d")
      (by decide)).2, by decide⟩,
    ((C9_interval_selection upNone [] "1d").2 (DataFetcher.request "1d")
      (by decide)).2⟩

theorem Date.le_jan1 (y : ℤ) (d : Date) (hm : 1 ≤ d.month) (hd : 1 ≤ d.day)
    (hy : d.year ≤ y) : Date.le ⟨y, 1, 1⟩ d = decide (d.year = y) := by
  unfold Date.le
  by_cases h : d.year = y
  · have h1 : ¬(y < d.year) := by omega
    rcases (by omega : 1 < d.month ∨ 1 = d.month) with h2 | h2
    · simp [h, h1, h2]
    · simp [h, h1, ← h2, hd]
  · have h1 : ¬(y < d.year) := by omega
    have h2 : ¬(y = d.year) := fun hh => h hh.symm
    simp [h, h1, h2]

theorem filter_jan1_eq (y : ℤ) (rows : List (Date × ℚ))
    (hrows : ∀ r ∈ rows, 1 ≤ r.1.month ∧ 1 ≤ r.1.day ∧ r.1.year ≤ y) :
    rows.filter (fun r => Date.le ⟨y, 1, 1⟩ r.1) =
      rows.filter (fun r => decide (r.1.year = y)) := by
  apply List.filter_congr
  intro r hr
  obtain ⟨hm, hd, hy⟩ := hrows r hr
  exact Date.le_jan1 y r.1 hm hd hy

/-- Claim C10 (amended): in the modular app's `update_graph`
(src/src/callbacks.py), a `ytd` request is served by fetching or reusing
the `max` series — nothing is ever stored under the `ytd` key — and, when
every row of the max series is dated no later than the current year, the
plotted rows are exactly the max-series rows of the current year; in the
monolithic variant (src/stocks.py) however, `ytd` is passed straight to
`fetch_data` and cached under its own key. -/
theorem C10_ytd_derived (up : Upstream) (cache : Cache) (y : ℤ) :
    cacheLookup (Callbacks.update_graph up cache y "ytd").2 "ytd" =
      cacheLookup cache "ytd" ∧
    (∀ df c1 rq, DataFetcher.fetch_data up cache "max" = (some df, c1, rq) →
      (∀ r ∈ df.rows, 1 ≤ r.1.month ∧ 1 ≤ r.1.day ∧ r.1.year ≤ y) →
      rowsOf (Callbacks.update_graph up cache y "ytd").1 =
        df.rows.filter (fun r => decide (r.1.year = y))) := by
  constructor
  · have hok := DataFetcher.fetch_data_other_key up cache "max" "ytd" (by decide)
    unfold Callbacks.update_graph
    rw [if_pos rfl]
    cases hf : DataFetcher.fetch_data up cache "max" with
    | mk odf cr =>
      rw [hf] at hok
      obtain ⟨c1, rq⟩ := cr
      cases odf with
      | none => exact hok
      | some df =>
        by_cases he : (df.rows.filter (fun r => Date.le ⟨y, 1, 1⟩ r.1)).isEmpty = true
        · show cacheLookup (if (df.rows.filter (fun r => Date.le ⟨y, 1, 1⟩ r.1)).isEmpty
            then (Except.ok GraphFig.noData, c1)
            else (Except.ok (GraphFig.chart "ytd"
              (df.rows.filter (fun r => Date.le ⟨y, 1, 1⟩ r.1))), c1)).2 "ytd" =
            cacheLookup cache "ytd"
          rw [if_pos he]
          exact hok
        · show cacheLookup (if (df.rows.filter (fun r => Date.le ⟨y, 1, 1⟩ r.1)).isEmpty
            then (Except.ok GraphFig.noData, c1)
            else (Except.ok (GraphFig.chart "ytd"
              (df.rows.filter (fun r => Date.le ⟨y, 1, 1⟩ r.1))), c1)).2 "ytd" =
            cacheLookup cache "ytd"
          rw [if_neg he]
          exact hok
  · intro df c1 rq hf hrows
    have hfil := filter_jan1_eq y df.rows hrows
    unfold Callbacks.update_graph
    rw [if_pos rfl, hf]
    by_cases he : (df.rows.filter (fun r => Date.le ⟨y, 1, 1⟩ r.1)).isEmpty = true
    · show rowsOf (if (df.rows.filter (fun r => Date.le ⟨y, 1, 1⟩ r.1)).isEmpty
        then (Except.ok GraphFig.noData, c1)
        else (Except.ok (GraphFig.chart "ytd"
          (df.rows.filter (fun r => Date.le ⟨y, 1, 1⟩ r.1))), c1)).1 =
        df.rows.filter (fun r => decide (r.1.year = y))
      rw [if_pos he]
      show ([] : List (Date × ℚ)) = df.rows.filter (fun r => decide (r.1.year = y))
      rw [← hfil]
      exact (List.isEmpty_iff.mp he).symm
    · show rowsOf (if (df.rows.filter (fun r => Date.le ⟨y, 1, 1⟩ r.1)).isEmpty
        then (Except.ok GraphFig.noData, c1)
        else (Except.ok (GraphFig.chart "ytd"
          (df.rows.filter (fun r => Date.le ⟨y, 1, 1⟩ r.1))), c1)).1 =
        df.rows.filter (fun r => decide (r.1.year = y))
      rw [if_neg he]
      exact hfil

/-- Witness for C10: a max series spanning 2022 and 2023, current year
2023 — `get("ytd")` returns only the 2023 row. -/
theorem C10_witness :
    rowsOf (Callbacks.update_graph upW [] 2023 "ytd").1 =
      [(⟨2023, 1, 5⟩, (110 : ℚ))] := by
  have h := (C10_ytd_derived upW [] 2023).2 dfW [("max", dfW)]
    [DataFetcher.request "max"] (by decide) (by decide)
  rw [h]
  decide

/-- Claim C10 counterexample: in src/stocks.py the `ytd` button is passed
verbatim to `fetch_data`, which queries the source with `period="ytd"`
(not `"max"`) and stores the result under the `ytd` cache key. -/
theorem C10_counterexample :
    cacheLookup (StockDashboard.update_graph upW [] "ytd").2 "ytd" = some dfW ∧
    (DataFetcher.fetch_data upW [] "ytd").2.2 = [DataFetcher.request "ytd"] := by
  decide
